import Mathlib

/-!
Verification of first-lesson-ADV.PROG: two small Flask servers
(src/jsonify.py, src/health_check.py) and a sequential walkthrough of
filesystem primitives (src/os_module_examples.py), shallowly embedded.
Query-string values are modelled as Lean Strings, numeric values as
exact rationals, and the filesystem as a finite association list from
relative paths (lists of name components) to entries.
-/

namespace AdvProg

/-- The body of an HTTP response produced by either server: a JSON object
of one of the shapes literally built by the handlers, or an HTML page
(what Flask serves by default for a 404 when the app installs no handler). -/
inductive Body where
  | jsonResult (r : ℚ)
  | jsonError (msg : String)
  | jsonStatus (status message : String)
  | jsonHealth (status service version : String)
  | html (content : String)
  deriving DecidableEq, Repr

/-- An HTTP response: a status code and a body. -/
structure Response where
  status : Nat
  body : Body
  deriving DecidableEq, Repr

/-- A request query string, as Flask exposes it: `request.args.get k`
is `some v` when parameter `k` was supplied with value `v`. -/
def Query := String → Option String

/-- Value of a list of decimal digit characters. -/
def digitsVal : List Char → Nat
  | [] => 0
  | c :: cs => (c.toNat - 48) * 10 ^ cs.length + digitsVal cs

/-- The scanning part of the model of the Python builtin float(): an
optional sign, digits with at most one dot, at least one digit overall,
and an optional decimal exponent. Returns the parsed value as an exact
numerator/denominator pair. Strings outside this fragment (including
inf, nan, whitespace-padded and underscore-separated forms) are treated
as not parsing; none of them occur in the claims. -/
def parsePyFloatRaw (s : String) : Option (ℤ × ℕ) :=
  let core : List Char → Option (ℤ × ℕ) := fun cs =>
    let ip := cs.takeWhile (fun c => c ≠ '.')
    let rest := cs.dropWhile (fun c => c ≠ '.')
    let fp := rest.drop 1
    if rest.length ≤ 1 ∨ (fp.all Char.isDigit ∧ fp ≠ []) then
      if ip.all Char.isDigit ∧ (ip ≠ [] ∨ fp ≠ []) then
        some ((digitsVal ip * 10 ^ fp.length + digitsVal fp : ℤ), 10 ^ fp.length)
      else none
    else none
  let signed : List Char → Option (ℤ × ℕ) := fun cs =>
    match cs with
    | '-' :: rest => (core rest).map (fun nd => (-nd.1, nd.2))
    | '+' :: rest => core rest
    | _ => core cs
  let expDigits : List Char → Option (Bool × ℕ) := fun ds =>
    match ds with
    | '-' :: rest => if rest.all Char.isDigit ∧ rest ≠ [] then some (true, digitsVal rest) else none
    | '+' :: rest => if rest.all Char.isDigit ∧ rest ≠ [] then some (false, digitsVal rest) else none
    | rest => if rest.all Char.isDigit ∧ rest ≠ [] then some (false, digitsVal rest) else none
  let cs := s.data
  let mant := cs.takeWhile (fun c => c ≠ 'e' ∧ c ≠ 'E')
  match cs.dropWhile (fun c => c ≠ 'e' ∧ c ≠ 'E') with
  | [] => signed mant
  | _ :: etail =>
    match signed mant, expDigits etail with
    | some nd, some (expNeg, e) =>
      if expNeg then some (nd.1, nd.2 * 10 ^ e) else some (nd.1 * 10 ^ e, nd.2)
    | _, _ => none

/-- Models the Python builtin float() on the fragment scanned by
`parsePyFloatRaw`, as the exact rational it denotes. -/
def parsePyFloat (s : String) : Option ℚ :=
  (parsePyFloatRaw s).map (fun nd => (nd.1 : ℚ) / (nd.2 : ℚ))

/-- Models `float(request.args.get(name, default))` from src/jsonify.py:
a missing parameter falls back to the numeric default (whose conversion
to float cannot fail); a supplied string is parsed, and a parse failure
carries the ValueError message raised by float(). -/
def getFloatArg (args : Query) (name : String) (default : ℚ) : Except String ℚ :=
  match args name with
  | none => .ok default
  | some s =>
    match parsePyFloat s with
    | some v => .ok v
    | none => .error ("could not convert string to float: " ++ s)

/-- The /divide handler of src/jsonify.py. `a` defaults to 0, `b` to 1;
a ZeroDivisionError from `a / b` yields the 400 response, any other
exception (in this handler, only the ValueError from float()) yields a
500 response carrying str(e). -/
def divide (args : Query) : Response :=
  match getFloatArg args "a" 0 with
  | .error e => ⟨500, .jsonError e⟩
  | .ok a =>
    match getFloatArg args "b" 1 with
    | .error e => ⟨500, .jsonError e⟩
    | .ok b =>
      if b = 0 then ⟨400, .jsonError "Cannot divide by zero you silly!"⟩
      else ⟨200, .jsonResult (a / b)⟩

/-- The /status handler of src/health_check.py. Its try block only builds
a jsonify response from string literals, which raises nothing, so the
except branch returning 500 is unreachable and the handler is the
constant 200 response. -/
def status : Response :=
  ⟨200, .jsonStatus "OK" "Service running smoothly"⟩

/-- The /health handler of src/health_check.py. As with /status, the try
block only jsonifies a literal dict, so the 500 branch is unreachable. -/
def health : Response :=
  ⟨200, .jsonHealth "healthy" "health-check-api" "1.0.0"⟩

/-- The errorhandler(404) of src/health_check.py. -/
def notFound : Response :=
  ⟨404, .jsonError "Endpoint not found"⟩

/-- The default 404 response Flask (via Werkzeug) serves when an app
registers no 404 handler: status 404 with an HTML body. src/jsonify.py
registers no error handlers, so its unknown routes receive this. -/
def flaskDefault404 : Response :=
  ⟨404, .html "<!doctype html>\n<html lang=en>\n<title>404 Not Found</title>\n<h1>Not Found</h1>\n<p>The requested URL was not found on the server. If you entered the URL manually please check your spelling and try again.</p>\n"⟩

/-- Routing of the health-check server: src/health_check.py registers
/status, /health and a 404 handler. -/
def healthCheckApp (path : String) : Response :=
  if path = "/status" then status
  else if path = "/health" then health
  else notFound

/-- Routing of the division server: src/jsonify.py registers only /divide
and no error handlers, so unknown routes get the Flask default 404. -/
def jsonifyApp (args : Query) (path : String) : Response :=
  if path = "/divide" then divide args
  else flaskDefault404

/-- The query string of `GET /divide?a=<sa>&b=<sb>`. -/
def queryAB (sa sb : String) : Query :=
  fun k => if k = "a" then some sa else if k = "b" then some sb else none

/-- The query string of `GET /divide?a=<sa>` (no `b`). -/
def queryA (sa : String) : Query :=
  fun k => if k = "a" then some sa else none

/-- The empty query string. -/
def queryNone : Query := fun _ => none

/-! ## Filesystem model for src/os_module_examples.py

The script only ever touches paths relative to the working directory, so a
path is a list of name components relative to it and the working directory
contents are a finite association list from paths to entries. Raising
operations return `Except String`, the string being the Python exception. -/

/-- A directory entry: a regular file, a directory, or a symbolic link
with its target string. File contents and permission bits are not
tracked: every file the script writes or chmods it deletes in the same
example, so they never reach a final state. -/
inductive Entry where
  | file
  | dir
  | link (target : String)
  deriving DecidableEq, Repr

/-- A path relative to the working directory, as name components. -/
abbrev Path := List String

/-- The working directory contents: path/entry pairs. -/
abbrev FS := List (Path × Entry)

/-- Render a path the way the script names it, for exception messages. -/
def joinPath (p : Path) : String := String.intercalate "/" p

/-- Entry at path `p`, if present. -/
def lookupFS (p : Path) : FS → Option Entry
  | [] => none
  | (q, e) :: fs => if q = p then some e else lookupFS p fs

/-- Remove the entry at path `p`. -/
def eraseFS (p : Path) : FS → FS
  | [] => []
  | (q, e) :: fs => if q = p then eraseFS p fs else (q, e) :: eraseFS p fs

/-- Add (or replace) the entry at path `p`. -/
def insertFS (p : Path) (e : Entry) (fs : FS) : FS :=
  (p, e) :: eraseFS p fs

/-- Models os.path.exists. -/
def pathExists (p : Path) (fs : FS) : Bool :=
  (lookupFS p fs).isSome

/-- True when the parent of `p` is a directory (a single-component path
lives directly in the working directory, which always exists). -/
def parentIsDir (p : Path) (fs : FS) : Bool :=
  p.length ≤ 1 ||
    match lookupFS p.dropLast fs with
    | some .dir => true
    | _ => false

/-- `underB p q` is true when `q` lies strictly below `p`. -/
def underB : Path → Path → Bool
  | [], [] => false
  | [], _ :: _ => true
  | _ :: _, [] => false
  | a :: p, b :: q => a == b && underB p q

/-- True when directory `p` has no entry strictly below it. -/
def dirEmpty (p : Path) (fs : FS) : Bool :=
  fs.all (fun qe => !(underB p qe.1))

/-- Models os.mkdir: fails if the path exists or its parent is missing. -/
def mkdir (p : Path) (fs : FS) : Except String FS :=
  if pathExists p fs then .error ("FileExistsError: " ++ joinPath p)
  else if parentIsDir p fs then .ok (insertFS p .dir fs)
  else .error ("FileNotFoundError: " ++ joinPath p)

/-- Create the listed ancestor directories in order, skipping those that
already exist as directories (the recursive part of os.makedirs). -/
def mkAncestors : List Path → FS → Except String FS
  | [], fs => .ok fs
  | q :: qs, fs =>
    match lookupFS q fs with
    | some .dir => mkAncestors qs fs
    | some _ => .error ("NotADirectoryError: " ++ joinPath q)
    | none => mkAncestors qs (insertFS q .dir fs)

/-- The proper ancestors of `p`, shortest first. -/
def properAncestors (p : Path) : List Path :=
  (List.range (p.length - 1)).map (fun i => p.take (i + 1))

/-- Models os.makedirs(p, exist_ok): creates missing intermediate
directories; an existing final directory is an error unless exist_ok,
and an existing non-directory is always an error. -/
def makedirs (p : Path) (existOk : Bool) (fs : FS) : Except String FS :=
  match mkAncestors (properAncestors p) fs with
  | .error e => .error e
  | .ok fs1 =>
    match lookupFS p fs1 with
  | none =>
    if parentIsDir p fs1 then .ok (insertFS p .dir fs1)
    else .error ("FileNotFoundError: " ++ joinPath p)
  | some .dir =>
    if existOk then .ok fs1 else .error ("FileExistsError: " ++ joinPath p)
  | some _ => .error ("FileExistsError: " ++ joinPath p)

/-- Models open(p, "w") followed by a write and close: creates or
truncates the file at `p`; fails if the parent directory is missing or
`p` is a directory. -/
def openW (p : Path) (fs : FS) : Except String FS :=
  match lookupFS p fs with
  | some .dir => .error ("IsADirectoryError: " ++ joinPath p)
  | _ =>
    if parentIsDir p fs then .ok (insertFS p .file fs)
    else .error ("FileNotFoundError: " ++ joinPath p)

/-- Models os.remove: deletes a file or symlink, never a directory. -/
def removeF (p : Path) (fs : FS) : Except String FS :=
  match lookupFS p fs with
  | none => .error ("FileNotFoundError: " ++ joinPath p)
  | some .dir => .error ("IsADirectoryError: " ++ joinPath p)
  | some _ => .ok (eraseFS p fs)

/-- Models os.rmdir: deletes an empty directory. -/
def rmdir (p : Path) (fs : FS) : Except String FS :=
  match lookupFS p fs with
  | none => .error ("FileNotFoundError: " ++ joinPath p)
  | some .file | some (.link _) => .error ("NotADirectoryError: " ++ joinPath p)
  | some .dir =>
    if dirEmpty p fs then .ok (eraseFS p fs)
    else .error ("OSError: directory not empty: " ++ joinPath p)

/-- Re-root one entry for a rename: an entry at or strictly below `old`
moves to the same position below `new`; anything else stays put. -/
def moveEntry (old new : Path) (qe : Path × Entry) : Path × Entry :=
  if qe.1 = old then (new, qe.2)
  else if underB old qe.1 then (new ++ qe.1.drop old.length, qe.2)
  else qe

/-- Re-root the subtree at `old` to `new`, first discarding whatever sat
exactly at `new`. -/
def moveSubtree (old new : Path) (fs : FS) : FS :=
  (eraseFS new fs).map (moveEntry old new)

/-- Models os.rename on POSIX: the source must exist; a directory may
not be renamed onto an existing path and nothing may be renamed onto an
existing directory; otherwise the whole subtree rooted at `old` is
re-rooted at `new`, silently replacing a plain file at `new`. -/
def renameF (old new : Path) (fs : FS) : Except String FS :=
  match lookupFS old fs with
  | none => .error ("FileNotFoundError: " ++ joinPath old)
  | some oldE =>
    match lookupFS new fs with
    | some .dir => .error ("IsADirectoryError: " ++ joinPath new)
    | some _ =>
      match oldE with
      | .dir => .error ("NotADirectoryError: " ++ joinPath new)
      | _ => .ok (moveSubtree old new fs)
    | none => .ok (moveSubtree old new fs)

/-- Models os.symlink(target, linkpath): fails if the link path exists. -/
def symlinkF (target : String) (linkpath : Path) (fs : FS) : Except String FS :=
  if pathExists linkpath fs then .error ("FileExistsError: " ++ joinPath linkpath)
  else if parentIsDir linkpath fs then .ok (insertFS linkpath (.link target) fs)
  else .error ("FileNotFoundError: " ++ joinPath linkpath)

/-- Models a read that stats the path (os.stat, os.path.getsize): the
filesystem is unchanged but a missing path raises. -/
def statF (p : Path) (fs : FS) : Except String FS :=
  if pathExists p fs then .ok fs
  else .error ("FileNotFoundError: " ++ joinPath p)

/-- Models os.chmod: the path must exist; permission bits themselves are
not tracked (see `Entry`), so the contents are unchanged. -/
def chmodF (p : Path) (mode : Nat) (fs : FS) : Except String FS :=
  if pathExists p fs then .ok fs
  else .error ("FileNotFoundError: " ++ joinPath p ++ " mode " ++ toString mode)

/-- Models os.readlink: the path must be a symbolic link. -/
def readlinkF (p : Path) (fs : FS) : Except String FS :=
  match lookupFS p fs with
  | some (.link _) => .ok fs
  | _ => .error ("OSError: not a link: " ++ joinPath p)

/-- Models os.listdir(p): the names sitting directly inside directory
`p`, in the order the model stores them. -/
def listdirNames (p : Path) (fs : FS) : List String :=
  fs.filterMap (fun qe => if qe.1.dropLast = p then qe.1.getLast? else none)

/-- True when the path neither is one of the given top-level names nor
lies below one of them. -/
def headOk (names : List String) : Path → Bool
  | [] => true
  | n :: _ => !(names.contains n)

/-- True when nothing in the working directory sits at or below any of
the given top-level names: the starting states in which an example finds
none of its artifacts already present. -/
def avoids (fs : FS) (names : List String) : Bool :=
  fs.all (fun qe => headOk names qe.1)

/-! ## The example functions as state transformers

Each example is a `Run`: it maps the working directory contents to the
contents when the example returns or raises, together with the message of
the exception if one escaped. Sequencing stops at the first raise but
keeps the partial effects, exactly as unwinding does in Python. Console
output, which no claim mentions, is not tracked. -/

/-- Outcome-carrying state transformer for one example function. -/
abbrev Run := FS → FS × Option String

/-- Run `f`, then `g` unless `f` raised. -/
def andThen (f g : Run) : Run := fun s =>
  match f s with
  | (t, none) => g t
  | r => r

/-- Lift a single raising filesystem operation. A raising primitive has
no partial effect, so the state at the raise is the input state. -/
def liftOp (op : FS → Except String FS) : Run := fun s =>
  match op s with
  | .ok t => (t, none)
  | .error e => (s, some e)

/-- The do-nothing step (reads, prints, pure path arithmetic). -/
def skipR : Run := fun s => (s, none)

/-- Run `r` only when `cond` is false (the `if not os.path.exists(...)`
guards of example 2). -/
def whenNot (cond : FS → Bool) (r : Run) : Run := fun s =>
  if cond s then (s, none) else r s

/-- Example 1 reads the working directory, changes into its parent and
back with os.chdir, and writes nothing: its effect on the working
directory contents is the identity. -/
def example_current_directory : Run := skipR

/-- Example 2: mkdir test_directory and makedirs parent/child/grandchild,
each guarded by `if not os.path.exists(...)`, then rmdir all four. -/
def example_directory_creation : Run :=
  andThen (whenNot (pathExists ["test_directory"]) (liftOp (mkdir ["test_directory"])))
  (andThen (whenNot (pathExists ["parent", "child", "grandchild"])
      (liftOp (makedirs ["parent", "child", "grandchild"] false)))
  (andThen (liftOp (rmdir ["parent", "child", "grandchild"]))
  (andThen (liftOp (rmdir ["parent", "child"]))
  (andThen (liftOp (rmdir ["parent"]))
  (liftOp (rmdir ["test_directory"]))))))

/-- Example 3 lists the current directory and prints: read only. -/
def example_list_directory : Run := skipR

/-- Example 4: makedirs test_check_dir (exist_ok), write test_file.txt,
run pure existence checks, then remove both. -/
def example_path_checks : Run :=
  andThen (liftOp (makedirs ["test_check_dir"] true))
  (andThen (liftOp (openW ["test_file.txt"]))
  (andThen (liftOp (removeF ["test_file.txt"]))
  (liftOp (rmdir ["test_check_dir"]))))

/-- Example 5 only joins and splits path strings: pure. -/
def example_path_manipulation : Run := skipR

/-- Example 6: write test_rename.txt, rename it twice, remove it. -/
def example_file_operations : Run :=
  andThen (liftOp (openW ["test_rename.txt"]))
  (andThen (liftOp (renameF ["test_rename.txt"] ["renamed_file.txt"]))
  (andThen (liftOp (renameF ["renamed_file.txt"] ["moved_file.txt"]))
  (liftOp (removeF ["moved_file.txt"]))))

/-- Example 7: write stats_test.txt, os.stat it, os.path.getsize it,
remove it. -/
def example_file_stats : Run :=
  andThen (liftOp (openW ["stats_test.txt"]))
  (andThen (liftOp (statF ["stats_test.txt"]))
  (andThen (liftOp (statF ["stats_test.txt"]))
  (liftOp (removeF ["stats_test.txt"]))))

/-- Example 8 reads and sets process environment variables and touches
no file: its filesystem effect is the identity. Its environment effect
is `exampleEnvSet` below. -/
def example_environment_variables_fs : Run := skipR

/-- Example 9: build walk_test with two subtrees and three files, walk
it (read only), then remove every artifact innermost first. -/
def example_directory_walk : Run :=
  andThen (liftOp (makedirs ["walk_test", "subdir1", "subsubdir"] true))
  (andThen (liftOp (makedirs ["walk_test", "subdir2"] true))
  (andThen (liftOp (openW ["walk_test", "file1.txt"]))
  (andThen (liftOp (openW ["walk_test", "subdir1", "file2.txt"]))
  (andThen (liftOp (openW ["walk_test", "subdir1", "subsubdir", "file3.txt"]))
  (andThen (liftOp (removeF ["walk_test", "subdir1", "subsubdir", "file3.txt"]))
  (andThen (liftOp (rmdir ["walk_test", "subdir1", "subsubdir"]))
  (andThen (liftOp (removeF ["walk_test", "subdir1", "file2.txt"]))
  (andThen (liftOp (rmdir ["walk_test", "subdir1"]))
  (andThen (liftOp (rmdir ["walk_test", "subdir2"]))
  (andThen (liftOp (removeF ["walk_test", "file1.txt"]))
  (liftOp (rmdir ["walk_test"]))))))))))))

/-- Example 10 prints os.name and friends: pure. -/
def example_system_info : Run := skipR

/-- Example 11 normalizes path strings and reads the cwd: pure. -/
def example_path_normalization : Run := skipR

/-- Example 12: build scan_test with three files and a subdir, scan it
(read only), then remove everything. -/
def example_scandir : Run :=
  andThen (liftOp (makedirs ["scan_test"] true))
  (andThen (liftOp (openW ["scan_test", "file1.txt"]))
  (andThen (liftOp (openW ["scan_test", "file2.py"]))
  (andThen (liftOp (openW ["scan_test", "file3.txt"]))
  (andThen (liftOp (makedirs ["scan_test", "subdir"] true))
  (andThen (liftOp (removeF ["scan_test", "file1.txt"]))
  (andThen (liftOp (removeF ["scan_test", "file2.py"]))
  (andThen (liftOp (removeF ["scan_test", "file3.txt"]))
  (andThen (liftOp (rmdir ["scan_test", "subdir"]))
  (liftOp (rmdir ["scan_test"]))))))))))

/-- Example 13: write perm_test.txt, stat it, chmod it read-only and
back (the script runs on a POSIX system, so the chmod branch executes),
then remove it. -/
def example_permissions : Run :=
  andThen (liftOp (openW ["perm_test.txt"]))
  (andThen (liftOp (statF ["perm_test.txt"]))
  (andThen (liftOp (chmodF ["perm_test.txt"] 0o444))
  (andThen (liftOp (chmodF ["perm_test.txt"] 0o644))
  (liftOp (removeF ["perm_test.txt"])))))

/-- Example 14 creates and removes my_temp_file.txt inside the system
temporary directory, which is outside the working directory this model
tracks: its effect on the working directory contents is the identity. -/
def example_temp_operations : Run := skipR

/-- Example 15: build search_test with nested dirs and four files, walk
it (read only), then remove every artifact. -/
def example_find_files : Run :=
  andThen (liftOp (makedirs ["search_test", "dir1", "dir2"] true))
  (andThen (liftOp (makedirs ["search_test", "dir3"] true))
  (andThen (liftOp (openW ["search_test", "target.txt"]))
  (andThen (liftOp (openW ["search_test", "dir1", "target.txt"]))
  (andThen (liftOp (openW ["search_test", "dir1", "dir2", "target.txt"]))
  (andThen (liftOp (openW ["search_test", "dir3", "other.txt"]))
  (andThen (liftOp (removeF ["search_test", "target.txt"]))
  (andThen (liftOp (removeF ["search_test", "dir1", "target.txt"]))
  (andThen (liftOp (removeF ["search_test", "dir1", "dir2", "target.txt"]))
  (andThen (liftOp (removeF ["search_test", "dir3", "other.txt"]))
  (andThen (liftOp (rmdir ["search_test", "dir1", "dir2"]))
  (andThen (liftOp (rmdir ["search_test", "dir1"]))
  (andThen (liftOp (rmdir ["search_test", "dir3"]))
  (liftOp (rmdir ["search_test"]))))))))))))))

/-- Example 16 reads process and user ids: pure. -/
def example_process_info : Run := skipR

/-- Example 17 (POSIX branch): write symlink_target.txt, symlink
symlink_link.txt to it, read the link, then remove both. -/
def example_symlinks : Run :=
  andThen (liftOp (openW ["symlink_target.txt"]))
  (andThen (liftOp (symlinkF "symlink_target.txt" ["symlink_link.txt"]))
  (andThen (liftOp (readlinkF ["symlink_link.txt"]))
  (andThen (liftOp (removeF ["symlink_link.txt"]))
  (liftOp (removeF ["symlink_target.txt"])))))

/-- Example 18: build size_test with two files, sum their sizes via
os.walk and os.path.getsize (the inner helper swallows OSError, so the
read raises nothing), then remove everything. -/
def example_directory_size : Run :=
  andThen (liftOp (makedirs ["size_test", "subdir"] true))
  (andThen (liftOp (openW ["size_test", "file1.txt"]))
  (andThen (liftOp (openW ["size_test", "subdir", "file2.txt"]))
  (andThen (liftOp (removeF ["size_test", "file1.txt"]))
  (andThen (liftOp (removeF ["size_test", "subdir", "file2.txt"]))
  (andThen (liftOp (rmdir ["size_test", "subdir"]))
  (liftOp (rmdir ["size_test"])))))))

/-- Example 19: makedirs safe_test with exist_ok twice, then rmdir it. -/
def example_safe_operations : Run :=
  andThen (liftOp (makedirs ["safe_test"] true))
  (andThen (liftOp (makedirs ["safe_test"] true))
  (liftOp (rmdir ["safe_test"])))

/-- Models os.path.splitext on a bare filename: the extension starts at
the last dot, unless every character before that dot is itself a dot. -/
def splitExt (name : String) : String × String :=
  let cs := name.data
  match ((cs.enum.filter (fun ic => ic.2 = '.')).map Prod.fst).getLast? with
  | none => (name, "")
  | some i =>
    if (cs.take i).any (fun c => c ≠ '.') then
      (⟨cs.take i⟩, ⟨cs.drop i⟩)
    else (name, "")

/-- One iteration of the organizing loop of example 20: if the listed
name is a plain file, ensure the folder named after its extension
(or "other") exists and rename the file into it. -/
def organizeStep (n : String) : Run := fun fs =>
  match lookupFS ["organize_test", n] fs with
  | some .file =>
    let ext := (splitExt n).2
    let folder := if ext ≠ "" then ext.drop 1 else "other"
    andThen (liftOp (makedirs ["organize_test", folder] true))
      (liftOp (renameF ["organize_test", n] ["organize_test", folder, n])) fs
  | _ => (fs, none)

/-- The organizing loop over an already-taken listdir snapshot. -/
def organizeLoop : List String → Run
  | [] => skipR
  | n :: rest => andThen (organizeStep n) (organizeLoop rest)

/-- Remove each listed name from inside `folder`. -/
def removeAllIn (folder : Path) : List String → Run
  | [] => skipR
  | n :: rest => andThen (liftOp (removeF (folder ++ [n]))) (removeAllIn folder rest)

/-- The cleanup pass of example 20 for one extension folder: listdir it
(raising if it is missing or not a directory), remove every file it
lists, then rmdir it. -/
def cleanupExtFolder (ext : String) : Run := fun fs =>
  match lookupFS ["organize_test", ext] fs with
  | some .dir =>
    andThen (removeAllIn ["organize_test", ext] (listdirNames ["organize_test", ext] fs))
      (liftOp (rmdir ["organize_test", ext])) fs
  | some _ => (fs, some ("NotADirectoryError: organize_test/" ++ ext))
  | none => (fs, some ("FileNotFoundError: organize_test/" ++ ext))

/-- Example 20: create organize_test with five files, move each file
into a folder named after its extension (snapshotting listdir first, as
the for loop does), then delete the three expected extension folders and
organize_test itself. -/
def example_file_organizer : Run :=
  andThen (liftOp (makedirs ["organize_test"] true))
  (andThen (liftOp (openW ["organize_test", "doc1.txt"]))
  (andThen (liftOp (openW ["organize_test", "doc2.txt"]))
  (andThen (liftOp (openW ["organize_test", "script1.py"]))
  (andThen (liftOp (openW ["organize_test", "script2.py"]))
  (andThen (liftOp (openW ["organize_test", "image1.jpg"]))
  (andThen (fun fs => organizeLoop (listdirNames ["organize_test"] fs) fs)
  (andThen (cleanupExtFolder "txt")
  (andThen (cleanupExtFolder "py")
  (andThen (cleanupExtFolder "jpg")
  (liftOp (rmdir ["organize_test"])))))))))))

/-! ## Process environment and the main loop -/

/-- The process environment, as os.environ exposes it: name/value pairs,
the most recent assignment first. -/
abbrev Env := List (String × String)

/-- Read an environment variable (os.environ.get). -/
def lookupEnv (k : String) : Env → Option String
  | [] => none
  | (k2, v) :: env => if k2 = k then some v else lookupEnv k env

/-- Assign an environment variable (os.environ[k] = v). -/
def setEnv (k v : String) (env : Env) : Env := (k, v) :: env

/-- The one environment write of the script, from example 8:
os.environ["MY_TEST_VAR"] = "test_value". Its reads change nothing. -/
def exampleEnvSet (env : Env) : Env := setEnv "MY_TEST_VAR" "test_value" env

/-- The whole state the script can affect: the working directory
contents and the process environment. -/
structure ScriptState where
  fs : FS
  env : Env
  deriving Repr

/-- One example as main sees it: a state transformer that reports the
escaped exception message, if any. -/
abbrev Step := ScriptState → ScriptState × Option String

/-- An example that only touches the filesystem. -/
def liftFS (r : Run) : Step := fun st =>
  ((⟨(r st.fs).1, st.env⟩ : ScriptState), (r st.fs).2)

/-- An example that only touches the environment and cannot raise. -/
def liftEnv (f : Env → Env) : Step := fun st =>
  ((⟨st.fs, f st.env⟩ : ScriptState), none)

/-- The examples list of main(), in source order. -/
def examplesList : List (String × Step) :=
  [ ("Current Directory Operations", liftFS example_current_directory)
  , ("Creating and Removing Directories", liftFS example_directory_creation)
  , ("Listing Directory Contents", liftFS example_list_directory)
  , ("File and Directory Checks", liftFS example_path_checks)
  , ("Path Manipulation", liftFS example_path_manipulation)
  , ("File Operations", liftFS example_file_operations)
  , ("File Statistics", liftFS example_file_stats)
  , ("Environment Variables", liftEnv exampleEnvSet)
  , ("Walking Directory Trees", liftFS example_directory_walk)
  , ("System Information", liftFS example_system_info)
  , ("Path Normalization", liftFS example_path_normalization)
  , ("Scanning Directory with Filters", liftFS example_scandir)
  , ("File Permissions", liftFS example_permissions)
  , ("Temporary Directory", liftFS example_temp_operations)
  , ("Finding Files Recursively", liftFS example_find_files)
  , ("Process Information", liftFS example_process_info)
  , ("Symbolic Links", liftFS example_symlinks)
  , ("Calculate Directory Size", liftFS example_directory_size)
  , ("Safe File Operations", liftFS example_safe_operations)
  , ("Practical File Organizer", liftFS example_file_organizer)
  ]

/-- The for loop of main(): every example is called inside try/except;
when one raises, the handler prints the error line and the loop goes on
to the next example. The returned trace has one slot per example, in
order: the printed error line if the example raised, `none` otherwise. -/
def mainLoop : List (String × Step) → ScriptState → ScriptState × List (Option String)
  | [], st => (st, [])
  | (_, f) :: rest, st =>
    let (st1, raised) := f st
    let printed := raised.map (fun e => "\nError in example: " ++ e)
    let (st2, trace) := mainLoop rest st1
    (st2, printed :: trace)

/-- main() of src/os_module_examples.py, reduced to the state it
threads through the examples and the per-example error lines. -/
def mainRun (st : ScriptState) : ScriptState × List (Option String) :=
  mainLoop examplesList st

/-- A demonstration step that always raises, used only to exercise the
error path of the main loop on a concrete input. -/
def raisingStep : Step := fun st => (st, some "boom")

/-- A two-example list whose first example raises, used only to exercise
the main loop on a concrete input. -/
def demoExamples : List (String × Step) :=
  [("Raising", raisingStep), ("Safe", liftFS example_safe_operations)]

/-- A step preserves the process environment. -/
def envPreservingStep (f : Step) : Prop :=
  ∀ st, ((f st).1).env = st.env

/-! ## Helper lemmas -/

theorem getFloatArg_parsed {args : Query} {name s : String} {v : ℚ} (d : ℚ)
    (h : args name = some s) (hp : parsePyFloat s = some v) :
    getFloatArg args name d = .ok v := by
  simp only [getFloatArg, h, hp]

theorem getFloatArg_missing {args : Query} {name : String} (d : ℚ)
    (h : args name = none) : getFloatArg args name d = .ok d := by
  simp only [getFloatArg, h]

theorem getFloatArg_unparsed {args : Query} {name s : String} (d : ℚ)
    (h : args name = some s) (hp : parsePyFloat s = none) :
    getFloatArg args name d = .error ("could not convert string to float: " ++ s) := by
  simp only [getFloatArg, h, hp]

theorem parse_ten : parsePyFloat "10" = some 10 := by
  have h : parsePyFloatRaw "10" = some (10, 1) := by decide
  simp [parsePyFloat, h]

theorem parse_two : parsePyFloat "2" = some 2 := by
  have h : parsePyFloatRaw "2" = some (2, 1) := by decide
  simp [parsePyFloat, h]

theorem parse_one : parsePyFloat "1" = some 1 := by
  have h : parsePyFloatRaw "1" = some (1, 1) := by decide
  simp [parsePyFloat, h]

theorem parse_zero : parsePyFloat "0" = some 0 := by
  have h : parsePyFloatRaw "0" = some (0, 1) := by decide
  simp [parsePyFloat, h]

theorem parse_seven : parsePyFloat "7" = some 7 := by
  have h : parsePyFloatRaw "7" = some (7, 1) := by decide
  simp [parsePyFloat, h]

theorem parse_abc : parsePyFloat "abc" = none := by
  have h : parsePyFloatRaw "abc" = none := by decide
  simp [parsePyFloat, h]

theorem float_error_msg_ne_empty (s : String) :
    ("could not convert string to float: " ++ s) ≠ "" := by
  intro h
  have hl := congrArg String.length h
  rw [String.length_append] at hl
  have h35 : ("could not convert string to float: " : String).length = 35 := rfl
  rw [h35] at hl
  simp at hl

theorem lookupFS_avoids (names : List String) (n : String) (hn : names.contains n = true)
    (rest : Path) : ∀ (fs : FS), avoids fs names = true → lookupFS (n :: rest) fs = none := by
  intro fs
  induction fs with
  | nil => intro _; rfl
  | cons qe fs ih =>
    obtain ⟨q, e⟩ := qe
    intro h
    simp only [avoids, List.all_cons, Bool.and_eq_true] at h
    obtain ⟨h1, h2⟩ := h
    by_cases hq : q = n :: rest
    · subst hq
      simp only [headOk, Bool.not_eq_true'] at h1
      rw [hn] at h1
      exact absurd h1 (by simp)
    · simp only [lookupFS, if_neg hq]
      exact ih h2

theorem eraseFS_avoids (names : List String) (n : String) (hn : names.contains n = true)
    (rest : Path) : ∀ (fs : FS), avoids fs names = true → eraseFS (n :: rest) fs = fs := by
  intro fs
  induction fs with
  | nil => intro _; rfl
  | cons qe fs ih =>
    obtain ⟨q, e⟩ := qe
    intro h
    simp only [avoids, List.all_cons, Bool.and_eq_true] at h
    obtain ⟨h1, h2⟩ := h
    by_cases hq : q = n :: rest
    · subst hq
      simp only [headOk, Bool.not_eq_true'] at h1
      rw [hn] at h1
      exact absurd h1 (by simp)
    · simp only [eraseFS, if_neg hq]
      rw [ih h2]

theorem underB_head {n : String} {rest q : Path} (h : underB (n :: rest) q = true) :
    ∃ tail, q = n :: tail := by
  cases q with
  | nil => simp [underB] at h
  | cons b q2 =>
    simp only [underB, Bool.and_eq_true, beq_iff_eq] at h
    exact ⟨q2, by rw [h.1]⟩

theorem dirEmpty_avoids (names : List String) (n : String) (hn : names.contains n = true)
    (rest : Path) : ∀ (fs : FS), avoids fs names = true → dirEmpty (n :: rest) fs = true := by
  intro fs
  induction fs with
  | nil => intro _; rfl
  | cons qe fs ih =>
    obtain ⟨q, e⟩ := qe
    intro h
    simp only [avoids, List.all_cons, Bool.and_eq_true] at h
    obtain ⟨h1, h2⟩ := h
    simp only [dirEmpty, List.all_cons, Bool.and_eq_true]
    refine ⟨?_, ih h2⟩
    by_cases hu : underB (n :: rest) q = true
    · obtain ⟨tail, rfl⟩ := underB_head hu
      simp only [headOk, Bool.not_eq_true'] at h1
      rw [hn] at h1
      exact absurd h1 (by simp)
    · simp [hu]

theorem listdirNames_avoids (names : List String) (n : String) (hn : names.contains n = true)
    (rest : Path) : ∀ (fs : FS), avoids fs names = true → listdirNames (n :: rest) fs = [] := by
  intro fs
  induction fs with
  | nil => intro _; rfl
  | cons qe fs ih =>
    obtain ⟨q, e⟩ := qe
    intro h
    simp only [avoids, List.all_cons, Bool.and_eq_true] at h
    obtain ⟨h1, h2⟩ := h
    simp only [listdirNames, List.filterMap_cons]
    have hq : ¬(q.dropLast = n :: rest) := by
      intro hd
      obtain ⟨tail, rfl⟩ : ∃ tail, q = n :: tail := by
        cases q with
        | nil => simp at hd
        | cons a q2 =>
          cases q2 with
          | nil => simp at hd
          | cons b q3 =>
            have hd2 : a :: (b :: q3).dropLast = n :: rest := hd
            injection hd2 with ha _
            exact ⟨b :: q3, by rw [ha]⟩
      simp only [headOk, Bool.not_eq_true'] at h1
      rw [hn] at h1
      exact absurd h1 (by simp)
    rw [if_neg hq]
    exact ih h2

theorem moveEntry_avoids (names : List String) (n : String) (hn : names.contains n = true)
    (rest : Path) (new : Path) : ∀ (fs : FS), avoids fs names = true →
    fs.map (moveEntry (n :: rest) new) = fs := by
  intro fs
  induction fs with
  | nil => intro _; rfl
  | cons qe fs ih =>
    obtain ⟨q, e⟩ := qe
    intro h
    simp only [avoids, List.all_cons, Bool.and_eq_true] at h
    obtain ⟨h1, h2⟩ := h
    have hne : ¬(q = n :: rest) := by
      intro hq
      subst hq
      simp only [headOk, Bool.not_eq_true'] at h1
      rw [hn] at h1
      exact absurd h1 (by simp)
    have hnu : ¬(underB (n :: rest) q = true) := by
      intro hu
      obtain ⟨tail, rfl⟩ := underB_head hu
      simp only [headOk, Bool.not_eq_true'] at h1
      rw [hn] at h1
      exact absurd h1 (by simp)
    simp only [List.map_cons, moveEntry, if_neg hne, Bool.not_eq_true] at *
    rw [if_neg (by simp [hnu]), ih h2]

theorem dirEmpty_cons (p q : Path) (e : Entry) (fs : FS) :
    dirEmpty p ((q, e) :: fs) = (!underB p q && dirEmpty p fs) := by
  simp [dirEmpty]

theorem safe_operations_restores (fs : FS) (h : avoids fs ["safe_test"] = true) :
    example_safe_operations fs = (fs, none) := by
  have h1 : ∀ rest, lookupFS ("safe_test" :: rest) fs = none :=
    fun rest => lookupFS_avoids ["safe_test"] "safe_test" (by decide) rest fs h
  have h2 : ∀ rest, eraseFS ("safe_test" :: rest) fs = fs :=
    fun rest => eraseFS_avoids ["safe_test"] "safe_test" (by decide) rest fs h
  have h3 : ∀ rest, dirEmpty ("safe_test" :: rest) fs = true :=
    fun rest => dirEmpty_avoids ["safe_test"] "safe_test" (by decide) rest fs h
  simp [example_safe_operations, andThen, liftOp, makedirs, properAncestors, mkAncestors,
    rmdir, insertFS, parentIsDir, pathExists, dirEmpty_cons, underB, lookupFS, eraseFS,
    h1, h2, h3]
theorem file_stats_restores (fs : FS) (h : avoids fs ["stats_test.txt"] = true) :
    example_file_stats fs = (fs, none) := by
  have h1 : ∀ rest, lookupFS ("stats_test.txt" :: rest) fs = none :=
    fun rest => lookupFS_avoids ["stats_test.txt"] "stats_test.txt" (by decide) rest fs h
  have h2 : ∀ rest, eraseFS ("stats_test.txt" :: rest) fs = fs :=
    fun rest => eraseFS_avoids ["stats_test.txt"] "stats_test.txt" (by decide) rest fs h
  have h3 : ∀ rest, dirEmpty ("stats_test.txt" :: rest) fs = true :=
    fun rest => dirEmpty_avoids ["stats_test.txt"] "stats_test.txt" (by decide) rest fs h
  simp [example_file_stats, andThen, liftOp, makedirs, properAncestors, mkAncestors, rmdir, mkdir, openW,
    removeF, statF, chmodF, symlinkF, readlinkF, renameF, moveSubtree, moveEntry, insertFS,
    parentIsDir, pathExists, dirEmpty_cons, underB, lookupFS, eraseFS, whenNot, h1, h2, h3]

theorem directory_walk_restores (fs : FS) (h : avoids fs ["walk_test"] = true) :
    example_directory_walk fs = (fs, none) := by
  have h1 : ∀ rest, lookupFS ("walk_test" :: rest) fs = none :=
    fun rest => lookupFS_avoids ["walk_test"] "walk_test" (by decide) rest fs h
  have h2 : ∀ rest, eraseFS ("walk_test" :: rest) fs = fs :=
    fun rest => eraseFS_avoids ["walk_test"] "walk_test" (by decide) rest fs h
  have h3 : ∀ rest, dirEmpty ("walk_test" :: rest) fs = true :=
    fun rest => dirEmpty_avoids ["walk_test"] "walk_test" (by decide) rest fs h
  simp [example_directory_walk, andThen, liftOp, makedirs, properAncestors, mkAncestors, rmdir, mkdir, openW,
    removeF, statF, chmodF, symlinkF, readlinkF, renameF, moveSubtree, moveEntry, insertFS,
    parentIsDir, pathExists, dirEmpty_cons, underB, lookupFS, eraseFS, whenNot, h1, h2, h3]

theorem scandir_restores (fs : FS) (h : avoids fs ["scan_test"] = true) :
    example_scandir fs = (fs, none) := by
  have h1 : ∀ rest, lookupFS ("scan_test" :: rest) fs = none :=
    fun rest => lookupFS_avoids ["scan_test"] "scan_test" (by decide) rest fs h
  have h2 : ∀ rest, eraseFS ("scan_test" :: rest) fs = fs :=
    fun rest => eraseFS_avoids ["scan_test"] "scan_test" (by decide) rest fs h
  have h3 : ∀ rest, dirEmpty ("scan_test" :: rest) fs = true :=
    fun rest => dirEmpty_avoids ["scan_test"] "scan_test" (by decide) rest fs h
  simp [example_scandir, andThen, liftOp, makedirs, properAncestors, mkAncestors, rmdir, mkdir, openW,
    removeF, statF, chmodF, symlinkF, readlinkF, renameF, moveSubtree, moveEntry, insertFS,
    parentIsDir, pathExists, dirEmpty_cons, underB, lookupFS, eraseFS, whenNot, h1, h2, h3]

theorem permissions_restores (fs : FS) (h : avoids fs ["perm_test.txt"] = true) :
    example_permissions fs = (fs, none) := by
  have h1 : ∀ rest, lookupFS ("perm_test.txt" :: rest) fs = none :=
    fun rest => lookupFS_avoids ["perm_test.txt"] "perm_test.txt" (by decide) rest fs h
  have h2 : ∀ rest, eraseFS ("perm_test.txt" :: rest) fs = fs :=
    fun rest => eraseFS_avoids ["perm_test.txt"] "perm_test.txt" (by decide) rest fs h
  have h3 : ∀ rest, dirEmpty ("perm_test.txt" :: rest) fs = true :=
    fun rest => dirEmpty_avoids ["perm_test.txt"] "perm_test.txt" (by decide) rest fs h
  simp [example_permissions, andThen, liftOp, makedirs, properAncestors, mkAncestors, rmdir, mkdir, openW,
    removeF, statF, chmodF, symlinkF, readlinkF, renameF, moveSubtree, moveEntry, insertFS,
    parentIsDir, pathExists, dirEmpty_cons, underB, lookupFS, eraseFS, whenNot, h1, h2, h3]

theorem find_files_restores (fs : FS) (h : avoids fs ["search_test"] = true) :
    example_find_files fs = (fs, none) := by
  have h1 : ∀ rest, lookupFS ("search_test" :: rest) fs = none :=
    fun rest => lookupFS_avoids ["search_test"] "search_test" (by decide) rest fs h
  have h2 : ∀ rest, eraseFS ("search_test" :: rest) fs = fs :=
    fun rest => eraseFS_avoids ["search_test"] "search_test" (by decide) rest fs h
  have h3 : ∀ rest, dirEmpty ("search_test" :: rest) fs = true :=
    fun rest => dirEmpty_avoids ["search_test"] "search_test" (by decide) rest fs h
  simp [example_find_files, andThen, liftOp, makedirs, properAncestors, mkAncestors, rmdir, mkdir, openW,
    removeF, statF, chmodF, symlinkF, readlinkF, renameF, moveSubtree, moveEntry, insertFS,
    parentIsDir, pathExists, dirEmpty_cons, underB, lookupFS, eraseFS, whenNot, h1, h2, h3]

theorem directory_size_restores (fs : FS) (h : avoids fs ["size_test"] = true) :
    example_directory_size fs = (fs, none) := by
  have h1 : ∀ rest, lookupFS ("size_test" :: rest) fs = none :=
    fun rest => lookupFS_avoids ["size_test"] "size_test" (by decide) rest fs h
  have h2 : ∀ rest, eraseFS ("size_test" :: rest) fs = fs :=
    fun rest => eraseFS_avoids ["size_test"] "size_test" (by decide) rest fs h
  have h3 : ∀ rest, dirEmpty ("size_test" :: rest) fs = true :=
    fun rest => dirEmpty_avoids ["size_test"] "size_test" (by decide) rest fs h
  simp [example_directory_size, andThen, liftOp, makedirs, properAncestors, mkAncestors, rmdir, mkdir, openW,
    removeF, statF, chmodF, symlinkF, readlinkF, renameF, moveSubtree, moveEntry, insertFS,
    parentIsDir, pathExists, dirEmpty_cons, underB, lookupFS, eraseFS, whenNot, h1, h2, h3]

theorem directory_creation_restores (fs : FS) (h : avoids fs ["test_directory", "parent"] = true) :
    example_directory_creation fs = (fs, none) := by
  have hl0 : ∀ rest, lookupFS ("test_directory" :: rest) fs = none :=
    fun rest => lookupFS_avoids ["test_directory", "parent"] "test_directory" (by decide) rest fs h
  have he0 : ∀ rest, eraseFS ("test_directory" :: rest) fs = fs :=
    fun rest => eraseFS_avoids ["test_directory", "parent"] "test_directory" (by decide) rest fs h
  have hd0 : ∀ rest, dirEmpty ("test_directory" :: rest) fs = true :=
    fun rest => dirEmpty_avoids ["test_directory", "parent"] "test_directory" (by decide) rest fs h
  have hl1 : ∀ rest, lookupFS ("parent" :: rest) fs = none :=
    fun rest => lookupFS_avoids ["test_directory", "parent"] "parent" (by decide) rest fs h
  have he1 : ∀ rest, eraseFS ("parent" :: rest) fs = fs :=
    fun rest => eraseFS_avoids ["test_directory", "parent"] "parent" (by decide) rest fs h
  have hd1 : ∀ rest, dirEmpty ("parent" :: rest) fs = true :=
    fun rest => dirEmpty_avoids ["test_directory", "parent"] "parent" (by decide) rest fs h
  simp [example_directory_creation, andThen, liftOp, makedirs, properAncestors, mkAncestors, rmdir, mkdir, openW,
    removeF, statF, chmodF, symlinkF, readlinkF, renameF, moveSubtree, moveEntry, insertFS,
    parentIsDir, pathExists, dirEmpty_cons, underB, lookupFS, eraseFS, whenNot, hl0, he0, hd0, hl1, he1, hd1]

theorem path_checks_restores (fs : FS) (h : avoids fs ["test_check_dir", "test_file.txt"] = true) :
    example_path_checks fs = (fs, none) := by
  have hl0 : ∀ rest, lookupFS ("test_check_dir" :: rest) fs = none :=
    fun rest => lookupFS_avoids ["test_check_dir", "test_file.txt"] "test_check_dir" (by decide) rest fs h
  have he0 : ∀ rest, eraseFS ("test_check_dir" :: rest) fs = fs :=
    fun rest => eraseFS_avoids ["test_check_dir", "test_file.txt"] "test_check_dir" (by decide) rest fs h
  have hd0 : ∀ rest, dirEmpty ("test_check_dir" :: rest) fs = true :=
    fun rest => dirEmpty_avoids ["test_check_dir", "test_file.txt"] "test_check_dir" (by decide) rest fs h
  have hl1 : ∀ rest, lookupFS ("test_file.txt" :: rest) fs = none :=
    fun rest => lookupFS_avoids ["test_check_dir", "test_file.txt"] "test_file.txt" (by decide) rest fs h
  have he1 : ∀ rest, eraseFS ("test_file.txt" :: rest) fs = fs :=
    fun rest => eraseFS_avoids ["test_check_dir", "test_file.txt"] "test_file.txt" (by decide) rest fs h
  have hd1 : ∀ rest, dirEmpty ("test_file.txt" :: rest) fs = true :=
    fun rest => dirEmpty_avoids ["test_check_dir", "test_file.txt"] "test_file.txt" (by decide) rest fs h
  simp [example_path_checks, andThen, liftOp, makedirs, properAncestors, mkAncestors, rmdir, mkdir, openW,
    removeF, statF, chmodF, symlinkF, readlinkF, renameF, moveSubtree, moveEntry, insertFS,
    parentIsDir, pathExists, dirEmpty_cons, underB, lookupFS, eraseFS, whenNot, hl0, he0, hd0, hl1, he1, hd1]

theorem file_operations_restores (fs : FS) (h : avoids fs ["test_rename.txt", "renamed_file.txt", "moved_file.txt"] = true) :
    example_file_operations fs = (fs, none) := by
  have hl0 : ∀ rest, lookupFS ("test_rename.txt" :: rest) fs = none :=
    fun rest => lookupFS_avoids ["test_rename.txt", "renamed_file.txt", "moved_file.txt"] "test_rename.txt" (by decide) rest fs h
  have he0 : ∀ rest, eraseFS ("test_rename.txt" :: rest) fs = fs :=
    fun rest => eraseFS_avoids ["test_rename.txt", "renamed_file.txt", "moved_file.txt"] "test_rename.txt" (by decide) rest fs h
  have hd0 : ∀ rest, dirEmpty ("test_rename.txt" :: rest) fs = true :=
    fun rest => dirEmpty_avoids ["test_rename.txt", "renamed_file.txt", "moved_file.txt"] "test_rename.txt" (by decide) rest fs h
  have hm0 : ∀ rest nw, fs.map (moveEntry ("test_rename.txt" :: rest) nw) = fs :=
    fun rest nw => moveEntry_avoids ["test_rename.txt", "renamed_file.txt", "moved_file.txt"] "test_rename.txt" (by decide) rest nw fs h
  have hl1 : ∀ rest, lookupFS ("renamed_file.txt" :: rest) fs = none :=
    fun rest => lookupFS_avoids ["test_rename.txt", "renamed_file.txt", "moved_file.txt"] "renamed_file.txt" (by decide) rest fs h
  have he1 : ∀ rest, eraseFS ("renamed_file.txt" :: rest) fs = fs :=
    fun rest => eraseFS_avoids ["test_rename.txt", "renamed_file.txt", "moved_file.txt"] "renamed_file.txt" (by decide) rest fs h
  have hd1 : ∀ rest, dirEmpty ("renamed_file.txt" :: rest) fs = true :=
    fun rest => dirEmpty_avoids ["test_rename.txt", "renamed_file.txt", "moved_file.txt"] "renamed_file.txt" (by decide) rest fs h
  have hm1 : ∀ rest nw, fs.map (moveEntry ("renamed_file.txt" :: rest) nw) = fs :=
    fun rest nw => moveEntry_avoids ["test_rename.txt", "renamed_file.txt", "moved_file.txt"] "renamed_file.txt" (by decide) rest nw fs h
  have hl2 : ∀ rest, lookupFS ("moved_file.txt" :: rest) fs = none :=
    fun rest => lookupFS_avoids ["test_rename.txt", "renamed_file.txt", "moved_file.txt"] "moved_file.txt" (by decide) rest fs h
  have he2 : ∀ rest, eraseFS ("moved_file.txt" :: rest) fs = fs :=
    fun rest => eraseFS_avoids ["test_rename.txt", "renamed_file.txt", "moved_file.txt"] "moved_file.txt" (by decide) rest fs h
  have hd2 : ∀ rest, dirEmpty ("moved_file.txt" :: rest) fs = true :=
    fun rest => dirEmpty_avoids ["test_rename.txt", "renamed_file.txt", "moved_file.txt"] "moved_file.txt" (by decide) rest fs h
  have hm2 : ∀ rest nw, fs.map (moveEntry ("moved_file.txt" :: rest) nw) = fs :=
    fun rest nw => moveEntry_avoids ["test_rename.txt", "renamed_file.txt", "moved_file.txt"] "moved_file.txt" (by decide) rest nw fs h
  simp [example_file_operations, andThen, liftOp, makedirs, properAncestors, mkAncestors, rmdir, mkdir, openW,
    removeF, statF, chmodF, symlinkF, readlinkF, renameF, moveSubtree, moveEntry, insertFS,
    parentIsDir, pathExists, dirEmpty_cons, underB, lookupFS, eraseFS, whenNot, hl0, he0, hd0, hm0, hl1, he1, hd1, hm1, hl2, he2, hd2, hm2]

theorem symlinks_restores (fs : FS) (h : avoids fs ["symlink_target.txt", "symlink_link.txt"] = true) :
    example_symlinks fs = (fs, none) := by
  have hl0 : ∀ rest, lookupFS ("symlink_target.txt" :: rest) fs = none :=
    fun rest => lookupFS_avoids ["symlink_target.txt", "symlink_link.txt"] "symlink_target.txt" (by decide) rest fs h
  have he0 : ∀ rest, eraseFS ("symlink_target.txt" :: rest) fs = fs :=
    fun rest => eraseFS_avoids ["symlink_target.txt", "symlink_link.txt"] "symlink_target.txt" (by decide) rest fs h
  have hd0 : ∀ rest, dirEmpty ("symlink_target.txt" :: rest) fs = true :=
    fun rest => dirEmpty_avoids ["symlink_target.txt", "symlink_link.txt"] "symlink_target.txt" (by decide) rest fs h
  have hl1 : ∀ rest, lookupFS ("symlink_link.txt" :: rest) fs = none :=
    fun rest => lookupFS_avoids ["symlink_target.txt", "symlink_link.txt"] "symlink_link.txt" (by decide) rest fs h
  have he1 : ∀ rest, eraseFS ("symlink_link.txt" :: rest) fs = fs :=
    fun rest => eraseFS_avoids ["symlink_target.txt", "symlink_link.txt"] "symlink_link.txt" (by decide) rest fs h
  have hd1 : ∀ rest, dirEmpty ("symlink_link.txt" :: rest) fs = true :=
    fun rest => dirEmpty_avoids ["symlink_target.txt", "symlink_link.txt"] "symlink_link.txt" (by decide) rest fs h
  simp [example_symlinks, andThen, liftOp, makedirs, properAncestors, mkAncestors, rmdir, mkdir, openW,
    removeF, statF, chmodF, symlinkF, readlinkF, renameF, moveSubtree, moveEntry, insertFS,
    parentIsDir, pathExists, dirEmpty_cons, underB, lookupFS, eraseFS, whenNot, hl0, he0, hd0, hl1, he1, hd1]

theorem listdirNames_cons (p q : Path) (e : Entry) (fs : FS) :
    listdirNames p ((q, e) :: fs) =
      if q.dropLast = p then q.getLast?.toList ++ listdirNames p fs
      else listdirNames p fs := by
  by_cases hc : q.dropLast = p
  · simp only [listdirNames, List.filterMap_cons, if_pos hc]
    cases hq : q.getLast? <;> simp [hq]
  · simp only [listdirNames, List.filterMap_cons, if_neg hc]

theorem splitExt_jpg : splitExt "image1.jpg" = ("image1", ".jpg") := rfl

theorem splitExt_txt1 : splitExt "doc1.txt" = ("doc1", ".txt") := rfl
theorem splitExt_txt2 : splitExt "doc2.txt" = ("doc2", ".txt") := rfl
theorem splitExt_py1 : splitExt "script1.py" = ("script1", ".py") := rfl
theorem splitExt_py2 : splitExt "script2.py" = ("script2", ".py") := rfl
theorem drop_txt : (".txt" : String).drop 1 = "txt" := rfl
theorem drop_py : (".py" : String).drop 1 = "py" := rfl
theorem drop_jpg : (".jpg" : String).drop 1 = "jpg" := rfl

theorem file_organizer_restores (fs : FS) (h : avoids fs ["organize_test"] = true) :
    example_file_organizer fs = (fs, none) := by
  have h1 : ∀ rest, lookupFS ("organize_test" :: rest) fs = none :=
    fun rest => lookupFS_avoids ["organize_test"] "organize_test" (by decide) rest fs h
  have h2 : ∀ rest, eraseFS ("organize_test" :: rest) fs = fs :=
    fun rest => eraseFS_avoids ["organize_test"] "organize_test" (by decide) rest fs h
  have h3 : ∀ rest, dirEmpty ("organize_test" :: rest) fs = true :=
    fun rest => dirEmpty_avoids ["organize_test"] "organize_test" (by decide) rest fs h
  have h4 : ∀ rest, listdirNames ("organize_test" :: rest) fs = [] :=
    fun rest => listdirNames_avoids ["organize_test"] "organize_test" (by decide) rest fs h
  have h5 : ∀ rest nw, fs.map (moveEntry ("organize_test" :: rest) nw) = fs :=
    fun rest nw => moveEntry_avoids ["organize_test"] "organize_test" (by decide) rest nw fs h
  have h4b : ∀ rest, fs.filterMap
      (fun qe => if qe.1.dropLast = ("organize_test" :: rest) then qe.1.getLast? else none) = [] :=
    fun rest => h4 rest
  simp [example_file_organizer, organizeLoop, organizeStep, cleanupExtFolder, removeAllIn,
    skipR, splitExt_jpg, splitExt_txt1, splitExt_txt2, splitExt_py1, splitExt_py2,
    drop_txt, drop_py, drop_jpg, andThen, liftOp, makedirs, properAncestors, mkAncestors, rmdir, mkdir,
    openW, removeF, statF, renameF, moveSubtree, moveEntry, insertFS, parentIsDir, pathExists,
    dirEmpty_cons, listdirNames_cons, underB, lookupFS, eraseFS, whenNot, h1, h2, h3, h4, h4b, h5]

theorem mainLoop_length (exs : List (String × Step)) :
    ∀ st : ScriptState, ((mainLoop exs st).2).length = exs.length := by
  induction exs with
  | nil => intro st; rfl
  | cons x rest ih =>
    intro st
    cases hfx : x.2 st with
    | mk st1 r => simp [mainLoop, hfx, ih]

theorem mainLoop_append (exs1 exs2 : List (String × Step)) :
    ∀ st : ScriptState, mainLoop (exs1 ++ exs2) st =
      ((mainLoop exs2 (mainLoop exs1 st).1).1,
        (mainLoop exs1 st).2 ++ (mainLoop exs2 (mainLoop exs1 st).1).2) := by
  induction exs1 with
  | nil => intro st; simp [mainLoop]
  | cons x rest ih =>
    intro st
    cases hfx : x.2 st with
    | mk st1 r => simp [mainLoop, hfx, ih]

theorem mainLoop_error_lines (exs : List (String × Step)) :
    ∀ (st : ScriptState) (line : Option String) (m : String),
      line ∈ (mainLoop exs st).2 → line = some m →
      ∃ e, m = "\nError in example: " ++ e := by
  induction exs with
  | nil => intro st line m hmem; simp [mainLoop] at hmem
  | cons x rest ih =>
    intro st line m hmem heq
    cases hfx : x.2 st with
    | mk st1 r =>
      rw [mainLoop, hfx] at hmem
      simp only [List.mem_cons] at hmem
      rcases hmem with hhead | htail
      · subst heq
        cases r with
        | none => simp at hhead
        | some e =>
          simp only [Option.map] at hhead
          injection hhead with hv
          exact ⟨e, hv⟩
      · exact ih st1 line m htail heq

theorem liftFS_env_preserving (r : Run) : envPreservingStep (liftFS r) := by
  intro st
  simp [liftFS]

theorem mainLoop_env_preserving (exs : List (String × Step)) :
    (∀ e ∈ exs, envPreservingStep e.2) →
    ∀ st : ScriptState, ((mainLoop exs st).1).env = st.env := by
  induction exs with
  | nil => intro _ st; rfl
  | cons x rest ih =>
    intro h st
    cases hfx : x.2 st with
    | mk st1 r =>
      have hx : st1.env = st.env := by
        have := h x (by simp)
        rw [envPreservingStep] at this
        have h2 := this st
        rw [hfx] at h2
        exact h2
      rw [mainLoop, hfx]
      simp only
      rw [ih (fun e he => h e (by simp [he])) st1, hx]

/-! ## The claims -/

/-- C1: when both query parameters parse as floats and b is non-zero, the
divide handler answers 200 with the exact quotient as its result field;
in particular a=10, b=2 yields result 5 (5.0 in JSON). -/
theorem divide_returns_quotient (args : Query) (sa sb : String) (va vb : ℚ)
    (ha : args "a" = some sa) (hb : args "b" = some sb)
    (hpa : parsePyFloat sa = some va) (hpb : parsePyFloat sb = some vb)
    (hnz : vb ≠ 0) :
    divide args = ⟨200, .jsonResult (va / vb)⟩ ∧
    divide (queryAB "10" "2") = ⟨200, .jsonResult 5⟩ := by
  constructor
  · unfold divide
    rw [getFloatArg_parsed 0 ha hpa, getFloatArg_parsed 1 hb hpb]
    simp [hnz]
  · unfold divide
    rw [getFloatArg_parsed 0 (rfl : queryAB "10" "2" "a" = some "10") parse_ten,
      getFloatArg_parsed 1 (rfl : queryAB "10" "2" "b" = some "2") parse_two]
    norm_num

/-- C1 witness: the general statement applied to the query a=10, b=2. -/
theorem divide_returns_quotient_witness :
    divide (queryAB "10" "2") = ⟨200, .jsonResult (10 / 2)⟩ :=
  (divide_returns_quotient (queryAB "10" "2") "10" "2" 10 2
    rfl rfl parse_ten parse_two (by norm_num)).1

/-- C2: when both query parameters parse as floats and b parses to zero,
the divide handler answers 400 with exactly the silly error message; in
particular for a=1, b=0. -/
theorem divide_by_zero_returns_400 (args : Query) (sa sb : String) (va : ℚ)
    (ha : args "a" = some sa) (hb : args "b" = some sb)
    (hpa : parsePyFloat sa = some va) (hpb : parsePyFloat sb = some 0) :
    divide args = ⟨400, .jsonError "Cannot divide by zero you silly!"⟩ ∧
    divide (queryAB "1" "0") = ⟨400, .jsonError "Cannot divide by zero you silly!"⟩ := by
  constructor
  · unfold divide
    rw [getFloatArg_parsed 0 ha hpa, getFloatArg_parsed 1 hb hpb]
    simp
  · unfold divide
    rw [getFloatArg_parsed 0 (rfl : queryAB "1" "0" "a" = some "1") parse_one,
      getFloatArg_parsed 1 (rfl : queryAB "1" "0" "b" = some "0") parse_zero]
    simp

/-- C2 witness: the general statement applied to the query a=1, b=0. -/
theorem divide_by_zero_returns_400_witness :
    divide (queryAB "1" "0") = ⟨400, .jsonError "Cannot divide by zero you silly!"⟩ :=
  (divide_by_zero_returns_400 (queryAB "1" "0") "1" "0" 1
    rfl rfl parse_one parse_zero).1

/-- C4: GET /status answers 200 with the OK body and GET /health answers
200 with the healthy body; since the try blocks of both handlers only
jsonify literals, neither 500 branch is reachable and the handlers are
these constants. -/
theorem status_and_health_always_200 :
    healthCheckApp "/status" = ⟨200, .jsonStatus "OK" "Service running smoothly"⟩ ∧
    healthCheckApp "/health" = ⟨200, .jsonHealth "healthy" "health-check-api" "1.0.0"⟩ := by
  constructor <;> rfl

/-- C5 counterexample: the claim quantifies over both web servers, but
src/jsonify.py registers no 404 handler, so its unknown routes receive
the Flask default HTML 404 page rather than the JSON error body. -/
theorem unknown_route_counterexample :
    jsonifyApp queryNone "/nope" ≠ ⟨404, .jsonError "Endpoint not found"⟩ := by
  decide

/-- C5 amended: every unknown route still answers with status 404, and on
the health-check server the body is exactly the JSON error object; on the
division server the body is the Flask default HTML 404 page instead. -/
theorem unknown_route_404 :
    (∀ path : String, path ≠ "/status" → path ≠ "/health" →
      healthCheckApp path = ⟨404, .jsonError "Endpoint not found"⟩) ∧
    (∀ (args : Query) (path : String), path ≠ "/divide" →
      jsonifyApp args path = flaskDefault404 ∧ (jsonifyApp args path).status = 404) := by
  constructor
  · intro path h1 h2
    simp [healthCheckApp, h1, h2, notFound]
  · intro args path h
    simp [jsonifyApp, h, flaskDefault404]

/-- C5 amended witness: both parts applied to the concrete route /nope. -/
theorem unknown_route_404_witness :
    healthCheckApp "/nope" = ⟨404, .jsonError "Endpoint not found"⟩ ∧
    jsonifyApp queryNone "/nope" = flaskDefault404 :=
  ⟨unknown_route_404.1 "/nope" (by decide) (by decide),
   (unknown_route_404.2 queryNone "/nope" (by decide)).1⟩

/-- C6: when the supplied parameter a does not parse as a float, the
divide handler answers 500 with a non-empty error string (the str of the
ValueError raised by float()). -/
theorem divide_bad_a_returns_500 (args : Query) (sa : String)
    (ha : args "a" = some sa) (hpa : parsePyFloat sa = none) :
    (divide args).status = 500 ∧
    ∃ msg, (divide args).body = .jsonError msg ∧ msg ≠ "" := by
  have hdiv : divide args =
      ⟨500, .jsonError ("could not convert string to float: " ++ sa)⟩ := by
    unfold divide
    rw [getFloatArg_unparsed 0 ha hpa]
  rw [hdiv]
  exact ⟨rfl, _, rfl, float_error_msg_ne_empty sa⟩

/-- C6 witness: the statement applied to the query a=abc, b=2. -/
theorem divide_bad_a_returns_500_witness :
    (divide (queryAB "abc" "2")).status = 500 ∧
    ∃ msg, (divide (queryAB "abc" "2")).body = .jsonError msg ∧ msg ≠ "" :=
  divide_bad_a_returns_500 (queryAB "abc" "2") "abc" rfl parse_abc

/-- C8: a missing parameter a is read as the default 0 and a missing
parameter b as the default 1: with no parameters the handler answers 200
with result 0, and with only a parseable a it answers 200 with result a. -/
theorem divide_defaults :
    (∀ (args : Query) (sb : String) (vb : ℚ), args "a" = none →
      args "b" = some sb → parsePyFloat sb = some vb → vb ≠ 0 →
      divide args = ⟨200, .jsonResult 0⟩) ∧
    (∀ (args : Query) (sa : String) (va : ℚ), args "b" = none →
      args "a" = some sa → parsePyFloat sa = some va →
      divide args = ⟨200, .jsonResult va⟩) ∧
    divide queryNone = ⟨200, .jsonResult 0⟩ := by
  refine ⟨?_, ?_, ?_⟩
  · intro args sb vb ha hb hpb hnz
    unfold divide
    rw [getFloatArg_missing 0 ha, getFloatArg_parsed 1 hb hpb]
    simp [hnz]
  · intro args sa va hb ha hpa
    unfold divide
    rw [getFloatArg_parsed 0 ha hpa, getFloatArg_missing 1 hb]
    simp
  · unfold divide
    rw [getFloatArg_missing 0 (rfl : queryNone "a" = none),
      getFloatArg_missing 1 (rfl : queryNone "b" = none)]
    norm_num

/-- C8 witness: the second part applied to the query with only a=7, and
the closed no-parameter case restated. -/
theorem divide_defaults_witness :
    divide (queryA "7") = ⟨200, .jsonResult 7⟩ ∧
    divide queryNone = ⟨200, .jsonResult 0⟩ :=
  ⟨divide_defaults.2.1 (queryA "7") "7" 7 rfl rfl parse_seven,
   divide_defaults.2.2⟩

/-- C10: whatever the query parameters, the divide handler returns a
response with status 200, 400 or 500 whose body is a JSON result or a
JSON error object; being a total function of the query, it propagates no
exception. -/
theorem divide_total_and_json (args : Query) :
    ((divide args).status = 200 ∨ (divide args).status = 400 ∨
      (divide args).status = 500) ∧
    ((∃ r, (divide args).body = .jsonResult r) ∨
      (∃ m, (divide args).body = .jsonError m)) := by
  unfold divide
  cases ha : getFloatArg args "a" 0 with
  | error e => simp
  | ok a =>
    cases hb : getFloatArg args "b" 1 with
    | error e => simp
    | ok b => by_cases h0 : b = 0 <;> simp [h0]

/-- C3 counterexample: started in a working directory that already holds
an empty directory named test_directory, example_directory_creation
completes without raising, yet afterwards that directory is gone (the
cleanup rmdir deletes it although the guarded mkdir never created it),
so the claim fails as stated over every starting state. -/
theorem example_cleanup_counterexample :
    example_directory_creation [(["test_directory"], Entry.dir)] = ([], none) ∧
    ([] : FS) ≠ [(["test_directory"], Entry.dir)] := by
  constructor
  · decide
  · decide

/-- C3 amended: each example of the filesystem script, when started in a
working directory holding nothing at or below the top-level names the
example uses for its artifacts, completes without raising and leaves the
working directory contents exactly as they were. -/
theorem examples_restore_workdir :
    (∀ fs : FS, example_current_directory fs = (fs, none)) ∧
    (∀ fs : FS, avoids fs ["test_directory", "parent"] = true → example_directory_creation fs = (fs, none)) ∧
    (∀ fs : FS, example_list_directory fs = (fs, none)) ∧
    (∀ fs : FS, avoids fs ["test_check_dir", "test_file.txt"] = true → example_path_checks fs = (fs, none)) ∧
    (∀ fs : FS, example_path_manipulation fs = (fs, none)) ∧
    (∀ fs : FS, avoids fs ["test_rename.txt", "renamed_file.txt", "moved_file.txt"] = true → example_file_operations fs = (fs, none)) ∧
    (∀ fs : FS, avoids fs ["stats_test.txt"] = true → example_file_stats fs = (fs, none)) ∧
    (∀ fs : FS, example_environment_variables_fs fs = (fs, none)) ∧
    (∀ fs : FS, avoids fs ["walk_test"] = true → example_directory_walk fs = (fs, none)) ∧
    (∀ fs : FS, example_system_info fs = (fs, none)) ∧
    (∀ fs : FS, example_path_normalization fs = (fs, none)) ∧
    (∀ fs : FS, avoids fs ["scan_test"] = true → example_scandir fs = (fs, none)) ∧
    (∀ fs : FS, avoids fs ["perm_test.txt"] = true → example_permissions fs = (fs, none)) ∧
    (∀ fs : FS, example_temp_operations fs = (fs, none)) ∧
    (∀ fs : FS, avoids fs ["search_test"] = true → example_find_files fs = (fs, none)) ∧
    (∀ fs : FS, example_process_info fs = (fs, none)) ∧
    (∀ fs : FS, avoids fs ["symlink_target.txt", "symlink_link.txt"] = true → example_symlinks fs = (fs, none)) ∧
    (∀ fs : FS, avoids fs ["size_test"] = true → example_directory_size fs = (fs, none)) ∧
    (∀ fs : FS, avoids fs ["safe_test"] = true → example_safe_operations fs = (fs, none)) ∧
    (∀ fs : FS, avoids fs ["organize_test"] = true → example_file_organizer fs = (fs, none)) :=
  ⟨fun _ => rfl, directory_creation_restores, fun _ => rfl, path_checks_restores, fun _ => rfl, file_operations_restores, file_stats_restores, fun _ => rfl, directory_walk_restores, fun _ => rfl, fun _ => rfl, scandir_restores, permissions_restores, fun _ => rfl, find_files_restores, fun _ => rfl, symlinks_restores, directory_size_restores, safe_operations_restores, file_organizer_restores⟩

/-- C3 amended witness: the twelve filesystem-touching components applied
to the empty working directory. -/
theorem examples_restore_workdir_witness :
    example_directory_creation [] = ([], none) ∧
    example_path_checks [] = ([], none) ∧
    example_file_operations [] = ([], none) ∧
    example_file_stats [] = ([], none) ∧
    example_directory_walk [] = ([], none) ∧
    example_scandir [] = ([], none) ∧
    example_permissions [] = ([], none) ∧
    example_find_files [] = ([], none) ∧
    example_symlinks [] = ([], none) ∧
    example_directory_size [] = ([], none) ∧
    example_safe_operations [] = ([], none) ∧
    example_file_organizer [] = ([], none) :=
  ⟨examples_restore_workdir.2.1 [] rfl,
   examples_restore_workdir.2.2.2.1 [] rfl,
   examples_restore_workdir.2.2.2.2.2.1 [] rfl,
   examples_restore_workdir.2.2.2.2.2.2.1 [] rfl,
   examples_restore_workdir.2.2.2.2.2.2.2.2.1 [] rfl,
   examples_restore_workdir.2.2.2.2.2.2.2.2.2.2.2.1 [] rfl,
   examples_restore_workdir.2.2.2.2.2.2.2.2.2.2.2.2.1 [] rfl,
   examples_restore_workdir.2.2.2.2.2.2.2.2.2.2.2.2.2.2.1 [] rfl,
   examples_restore_workdir.2.2.2.2.2.2.2.2.2.2.2.2.2.2.2.2.1 [] rfl,
   examples_restore_workdir.2.2.2.2.2.2.2.2.2.2.2.2.2.2.2.2.2.1 [] rfl,
   examples_restore_workdir.2.2.2.2.2.2.2.2.2.2.2.2.2.2.2.2.2.2.1 [] rfl,
   examples_restore_workdir.2.2.2.2.2.2.2.2.2.2.2.2.2.2.2.2.2.2.2 [] rfl⟩

/-- C7: the for loop of main() records one outcome per example in order,
whatever each example does: the trace always has one slot per example,
splitting the list anywhere shows the loop continues past the first part
(raises included) into the second, every error it prints carries the
Error-in-example prefix, and the concrete twenty-example list always
produces twenty slots. -/
theorem main_loop_continues_after_raise :
    (∀ (exs : List (String × Step)) (st : ScriptState),
      ((mainLoop exs st).2).length = exs.length) ∧
    (∀ (exs1 exs2 : List (String × Step)) (st : ScriptState),
      mainLoop (exs1 ++ exs2) st =
        ((mainLoop exs2 (mainLoop exs1 st).1).1,
          (mainLoop exs1 st).2 ++ (mainLoop exs2 (mainLoop exs1 st).1).2)) ∧
    (∀ (exs : List (String × Step)) (st : ScriptState) (line : Option String) (m : String),
      line ∈ (mainLoop exs st).2 → line = some m →
      ∃ e, m = "\nError in example: " ++ e) ∧
    (∀ st : ScriptState, ((mainRun st).2).length = 20) :=
  ⟨fun exs st => mainLoop_length exs st,
   fun exs1 exs2 st => mainLoop_append exs1 exs2 st,
   fun exs st line m hmem heq => mainLoop_error_lines exs st line m hmem heq,
   fun st => mainLoop_length examplesList st⟩

/-- C7 witness: the loop applied to a concrete two-example list whose
first example raises: both slots are produced and the printed line for
the raise carries the prefix. -/
theorem main_loop_continues_after_raise_witness :
    ((mainLoop demoExamples ⟨[], []⟩).2).length = 2 ∧
    (∃ e, "\nError in example: boom" = "\nError in example: " ++ e) :=
  ⟨main_loop_continues_after_raise.1 demoExamples ⟨[], []⟩,
   main_loop_continues_after_raise.2.2.1 demoExamples ⟨[], []⟩
     (some "\nError in example: boom") "\nError in example: boom" (by decide) rfl⟩

/-- C9: whatever state the script starts from, after main() has run the
process environment maps MY_TEST_VAR to test_value: example 8 sets it
and no later example touches the environment, so the script never
removes it even though every filesystem artifact is removed. -/
theorem env_var_set_and_never_removed (st : ScriptState) :
    lookupEnv "MY_TEST_VAR" ((mainRun st).1).env = some "test_value" := by
  have hsplit : examplesList =
      [ ("Current Directory Operations", liftFS example_current_directory)
      , ("Creating and Removing Directories", liftFS example_directory_creation)
      , ("Listing Directory Contents", liftFS example_list_directory)
      , ("File and Directory Checks", liftFS example_path_checks)
      , ("Path Manipulation", liftFS example_path_manipulation)
      , ("File Operations", liftFS example_file_operations)
      , ("File Statistics", liftFS example_file_stats) ] ++
      ("Environment Variables", liftEnv exampleEnvSet) ::
      [ ("Walking Directory Trees", liftFS example_directory_walk)
      , ("System Information", liftFS example_system_info)
      , ("Path Normalization", liftFS example_path_normalization)
      , ("Scanning Directory with Filters", liftFS example_scandir)
      , ("File Permissions", liftFS example_permissions)
      , ("Temporary Directory", liftFS example_temp_operations)
      , ("Finding Files Recursively", liftFS example_find_files)
      , ("Process Information", liftFS example_process_info)
      , ("Symbolic Links", liftFS example_symlinks)
      , ("Calculate Directory Size", liftFS example_directory_size)
      , ("Safe File Operations", liftFS example_safe_operations)
      , ("Practical File Organizer", liftFS example_file_organizer) ] := rfl
  rw [mainRun, hsplit, mainLoop_append]
  generalize (mainLoop [ ("Current Directory Operations", liftFS example_current_directory)
      , ("Creating and Removing Directories", liftFS example_directory_creation)
      , ("Listing Directory Contents", liftFS example_list_directory)
      , ("File and Directory Checks", liftFS example_path_checks)
      , ("Path Manipulation", liftFS example_path_manipulation)
      , ("File Operations", liftFS example_file_operations)
      , ("File Statistics", liftFS example_file_stats) ] st).1 = st1
  have hpost : ∀ e ∈ [ ("Walking Directory Trees", liftFS example_directory_walk)
      , ("System Information", liftFS example_system_info)
      , ("Path Normalization", liftFS example_path_normalization)
      , ("Scanning Directory with Filters", liftFS example_scandir)
      , ("File Permissions", liftFS example_permissions)
      , ("Temporary Directory", liftFS example_temp_operations)
      , ("Finding Files Recursively", liftFS example_find_files)
      , ("Process Information", liftFS example_process_info)
      , ("Symbolic Links", liftFS example_symlinks)
      , ("Calculate Directory Size", liftFS example_directory_size)
      , ("Safe File Operations", liftFS example_safe_operations)
      , ("Practical File Organizer", liftFS example_file_organizer) ],
      envPreservingStep (Prod.snd e) := by
    intro e he
    simp only [List.mem_cons] at he
    rcases he with rfl | rfl | rfl | rfl | rfl | rfl | rfl | rfl | rfl | rfl | rfl | rfl | he
    case _ => exact liftFS_env_preserving _
    case _ => exact liftFS_env_preserving _
    case _ => exact liftFS_env_preserving _
    case _ => exact liftFS_env_preserving _
    case _ => exact liftFS_env_preserving _
    case _ => exact liftFS_env_preserving _
    case _ => exact liftFS_env_preserving _
    case _ => exact liftFS_env_preserving _
    case _ => exact liftFS_env_preserving _
    case _ => exact liftFS_env_preserving _
    case _ => exact liftFS_env_preserving _
    case _ => exact liftFS_env_preserving _
    case _ => simp at he
  rw [mainLoop]
  simp only [liftEnv]
  rw [mainLoop_env_preserving _ hpost]
  simp [exampleEnvSet, setEnv, lookupEnv]

end AdvProg
